import Mathlib

/-!
Shallow embedding of `src/jira_manager.py`, a command-line tool that creates,
edits and deletes issues on a remote Jira server through the `jira` Python
client library.

Modelling conventions:
* The remote client library is an oracle (`Client`): each operation the script
  can invoke on it is a field giving that call's outcome.  Constructing the
  `JIRA` client object (`JIRA(server=…, basic_auth=…)`) is itself a remote
  interaction: by the client library's default behaviour the constructor
  contacts the server (fetching server info / establishing the authenticated
  session), and it can raise.  It is recorded as `RemoteCall.init`.
* A run of `main` produces a `RunResult`: the process outcome (a `sys.exit`
  code, or an exception that escaped `main`), the lines printed, and the
  ordered trace of remote calls attempted.
* Python exceptions are modelled by `PyExc`: `jiraError` for the library's
  `JIRAError` class (the only class the top-level handler catches) and
  `otherExc` for every other exception class an operation may raise.
* Python truthiness on optional strings/lists (`if not args.project`, …) is
  `truthyOptStr` / `truthyOptList`; `None` and empty values are falsy.
* `int(v)` / `float(v)` are modelled for ASCII decimal literals (optional
  surrounding whitespace, sign, underscore digit separators, and for floats a
  decimal point and exponent); Unicode digit variants are out of scope.
  The value of a float literal is kept as the exact rational it denotes.
-/

/-- A value stored in the field map sent to the remote service: plain strings,
numbers produced by `--set-field` coercion, the `{'name': …}` / `{'key': …}`
wrapper dicts, label lists, and the `timetracking` sub-dict. -/
inductive FieldValue
  | str (s : String)
  | int (n : Int)
  | float (q : Rat)
  | nameObj (s : String)
  | keyObj (s : String)
  | strList (ls : List String)
  | timetracking (originalEstimate remainingEstimate : Option String)
deriving DecidableEq, Repr

/-- A Python dict from field name to value, as an insertion-ordered
association list. -/
abbrev FieldMap := List (String × FieldValue)

/-- Python dict assignment `m[k] = v`: overwrite in place if the key exists,
otherwise append. -/
def dictInsert (m : FieldMap) (k : String) (v : FieldValue) : FieldMap :=
  if m.any (fun p => p.1 == k) then
    m.map (fun p => if p.1 == k then (k, v) else p)
  else m ++ [(k, v)]

/-- Python `m.update(extra)`: assign each binding of `extra` in order. -/
def dictUpdate (m : FieldMap) (extra : FieldMap) : FieldMap :=
  extra.foldl (fun acc p => dictInsert acc p.1 p.2) m

/-- Lookup `m[k]` as an `Option`. -/
def dictLookup (m : FieldMap) (k : String) : Option FieldValue :=
  (m.find? (fun p => p.1 == k)).map (fun p => p.2)

/-- Whether the dict has an entry for key `k`. -/
def dictHasKey (m : FieldMap) (k : String) : Bool :=
  m.any (fun p => p.1 == k)

/-- A Python exception as seen by the script: either the client library's
`JIRAError` (the only class `main`'s handler catches) or an exception of any
other class (e.g. a transport-level `ConnectionError`). -/
inductive PyExc
  | jiraError (msg : String)
  | otherExc (msg : String)
deriving DecidableEq, Repr

/-- One attempted interaction with the remote service, in program order.
`init` is the construction of the `JIRA` client, which by the library's
default behaviour contacts the server. -/
inductive RemoteCall
  | init (server email token : String)
  | issueTypes
  | createIssue (fields : FieldMap)
  | getIssue (key : String)
  | updateIssue (key : String) (fields : FieldMap)
  | deleteIssue (key : String)
deriving DecidableEq, Repr

/-- The remote-client oracle: the outcome of each call the script can make.
`issueTypesRes` yields the names of the tracker's issue types;
`createRes` yields the key of the created issue; `getRes` yields the key of
the fetched issue object. -/
structure Client where
  initRes : Except PyExc Unit
  issueTypesRes : Except PyExc (List String)
  createRes : FieldMap → Except PyExc String
  getRes : String → Except PyExc String
  updateRes : String → FieldMap → Except PyExc Unit
  deleteRes : String → Except PyExc Unit

/-- How the process run ends: a `sys.exit` (explicit or by falling off the end
of `main`), or an exception that escaped `main` (the interpreter then prints a
traceback instead of the script's error message). -/
inductive Outcome
  | exited (code : Nat)
  | uncaughtExc (e : PyExc)
deriving DecidableEq, Repr

/-- The observable result of one process run. -/
structure RunResult where
  outcome : Outcome
  output : List String
  trace : List RemoteCall
deriving DecidableEq, Repr

/-- Python truthiness of an optional string: `None` and `""` are falsy. -/
def truthyOptStr : Option String → Bool
  | none => false
  | some s => s ≠ ""

/-- Python truthiness of an optional list: `None` and `[]` are falsy. -/
def truthyOptList : Option (List String) → Bool
  | none => false
  | some l => l ≠ []

/-- The parsed command line (the `argparse` namespace).  `description`
defaults to `""` (the parser's `default=''`) and `set_field` to `[]`
(`action='append', default=[]`); every other optional flag defaults to
`None`. -/
structure Args where
  type : String
  issue_key_or_summary : Option String := none
  project : Option String := none
  description : String := ""
  assignee : Option String := none
  labels : Option (List String) := none
  priority : Option String := none
  parent : Option String := none
  epic_name : Option String := none
  summary : Option String := none
  original_estimate : Option String := none
  remaining_estimate : Option String := none
  set_field : List String := []

/-- The three credential environment variables, `None` when unset. -/
structure Env where
  jira_server : Option String := none
  jira_email : Option String := none
  jira_token : Option String := none

/-- Whitespace as stripped by Python's `int()` / `float()` parsing. -/
def isPyWs (ch : Char) : Bool :=
  ch = ' ' || ch = '\t' || ch = '\n' || ch = '\r' ||
  ch = Char.ofNat 11 || ch = Char.ofNat 12

/-- States of the scanner for Python `int()` string parsing:
leading whitespace, just after a sign, inside the digit run, just after an
underscore separator, trailing whitespace. -/
inductive IntSt
  | ws0 | sgn | dg | dgU | ws1
deriving DecidableEq, Repr

/-- Scanner for Python `int(v)` on ASCII input: optional whitespace, optional
sign, a nonempty digit run with single underscores between digits, optional
trailing whitespace.  Returns the parsed value, or `none` where `int()`
raises `ValueError`. -/
def intScan : List Char → IntSt → Bool → Nat → Option Int
  | [], st, neg, acc =>
    if st = IntSt.dg || st = IntSt.ws1 then
      some (if neg then -(acc : Int) else (acc : Int))
    else none
  | c :: r, IntSt.ws0, neg, acc =>
    if isPyWs c then intScan r IntSt.ws0 neg acc
    else if c = '+' then intScan r IntSt.sgn false acc
    else if c = '-' then intScan r IntSt.sgn true acc
    else if c.isDigit then intScan r IntSt.dg neg (c.toNat - 48)
    else none
  | c :: r, IntSt.sgn, neg, acc =>
    if c.isDigit then intScan r IntSt.dg neg (c.toNat - 48) else none
  | c :: r, IntSt.dg, neg, acc =>
    if c.isDigit then intScan r IntSt.dg neg (acc * 10 + (c.toNat - 48))
    else if c = '_' then intScan r IntSt.dgU neg acc
    else if isPyWs c then intScan r IntSt.ws1 neg acc
    else none
  | c :: r, IntSt.dgU, neg, acc =>
    if c.isDigit then intScan r IntSt.dg neg (acc * 10 + (c.toNat - 48))
    else none
  | c :: r, IntSt.ws1, neg, acc =>
    if isPyWs c then intScan r IntSt.ws1 neg acc else none

/-- Python `int(v)` on a string. -/
def pyInt? (s : String) : Option Int :=
  intScan s.toList IntSt.ws0 false 0

/-- States of the scanner for Python `float()` string parsing. -/
inductive FloatSt
  | ws0 | sgn | ip | ipU | dotNoInt | dotInt | fp | fpU | eS | eSgn | ed | edU | ws1
deriving DecidableEq, Repr

/-- Assemble the exact rational value of a parsed float literal:
sign, mantissa digits, number of fractional digits, exponent sign and
exponent digits. -/
def ratOfParts (neg : Bool) (mant scale : Nat) (eneg : Bool) (ex : Nat) : Rat :=
  let m : Rat := if neg then -(mant : Rat) else (mant : Rat)
  let e : Int := (if eneg then -(ex : Int) else (ex : Int)) - (scale : Int)
  if 0 ≤ e then m * ((10 : Rat) ^ e.toNat) else m / ((10 : Rat) ^ (-e).toNat)

/-- Scanner for Python `float(v)` on ASCII decimal literals: optional
whitespace and sign, digits with optional decimal point and fractional
digits (at least one digit overall), optional exponent, optional trailing
whitespace; single underscores allowed between digits of each digit run.
Returns the exact rational value, or `none` where `float()` raises
`ValueError`. -/
def floatScan : List Char → FloatSt → Bool → Nat → Nat → Bool → Nat → Option Rat
  | [], st, neg, mant, scale, eneg, ex =>
    if st = FloatSt.ip || st = FloatSt.dotInt || st = FloatSt.fp ||
        st = FloatSt.ed || st = FloatSt.ws1 then
      some (ratOfParts neg mant scale eneg ex)
    else none
  | c :: r, FloatSt.ws0, neg, mant, scale, eneg, ex =>
    if isPyWs c then floatScan r FloatSt.ws0 neg mant scale eneg ex
    else if c = '+' then floatScan r FloatSt.sgn false mant scale eneg ex
    else if c = '-' then floatScan r FloatSt.sgn true mant scale eneg ex
    else if c.isDigit then floatScan r FloatSt.ip neg (c.toNat - 48) scale eneg ex
    else if c = '.' then floatScan r FloatSt.dotNoInt neg mant scale eneg ex
    else none
  | c :: r, FloatSt.sgn, neg, mant, scale, eneg, ex =>
    if c.isDigit then floatScan r FloatSt.ip neg (c.toNat - 48) scale eneg ex
    else if c = '.' then floatScan r FloatSt.dotNoInt neg mant scale eneg ex
    else none
  | c :: r, FloatSt.ip, neg, mant, scale, eneg, ex =>
    if c.isDigit then floatScan r FloatSt.ip neg (mant * 10 + (c.toNat - 48)) scale eneg ex
    else if c = '_' then floatScan r FloatSt.ipU neg mant scale eneg ex
    else if c = '.' then floatScan r FloatSt.dotInt neg mant scale eneg ex
    else if c = 'e' || c = 'E' then floatScan r FloatSt.eS neg mant scale eneg ex
    else if isPyWs c then floatScan r FloatSt.ws1 neg mant scale eneg ex
    else none
  | c :: r, FloatSt.ipU, neg, mant, scale, eneg, ex =>
    if c.isDigit then floatScan r FloatSt.ip neg (mant * 10 + (c.toNat - 48)) scale eneg ex
    else none
  | c :: r, FloatSt.dotNoInt, neg, mant, scale, eneg, ex =>
    if c.isDigit then floatScan r FloatSt.fp neg (mant * 10 + (c.toNat - 48)) (scale + 1) eneg ex
    else none
  | c :: r, FloatSt.dotInt, neg, mant, scale, eneg, ex =>
    if c.isDigit then floatScan r FloatSt.fp neg (mant * 10 + (c.toNat - 48)) (scale + 1) eneg ex
    else if c = 'e' || c = 'E' then floatScan r FloatSt.eS neg mant scale eneg ex
    else if isPyWs c then floatScan r FloatSt.ws1 neg mant scale eneg ex
    else none
  | c :: r, FloatSt.fp, neg, mant, scale, eneg, ex =>
    if c.isDigit then floatScan r FloatSt.fp neg (mant * 10 + (c.toNat - 48)) (scale + 1) eneg ex
    else if c = '_' then floatScan r FloatSt.fpU neg mant scale eneg ex
    else if c = 'e' || c = 'E' then floatScan r FloatSt.eS neg mant scale eneg ex
    else if isPyWs c then floatScan r FloatSt.ws1 neg mant scale eneg ex
    else none
  | c :: r, FloatSt.fpU, neg, mant, scale, eneg, ex =>
    if c.isDigit then floatScan r FloatSt.fp neg (mant * 10 + (c.toNat - 48)) (scale + 1) eneg ex
    else none
  | c :: r, FloatSt.eS, neg, mant, scale, eneg, ex =>
    if c = '+' then floatScan r FloatSt.eSgn neg mant scale false ex
    else if c = '-' then floatScan r FloatSt.eSgn neg mant scale true ex
    else if c.isDigit then floatScan r FloatSt.ed neg mant scale eneg (c.toNat - 48)
    else none
  | c :: r, FloatSt.eSgn, neg, mant, scale, eneg, ex =>
    if c.isDigit then floatScan r FloatSt.ed neg mant scale eneg (c.toNat - 48)
    else none
  | c :: r, FloatSt.ed, neg, mant, scale, eneg, ex =>
    if c.isDigit then floatScan r FloatSt.ed neg mant scale eneg (ex * 10 + (c.toNat - 48))
    else if c = '_' then floatScan r FloatSt.edU neg mant scale eneg ex
    else if isPyWs c then floatScan r FloatSt.ws1 neg mant scale eneg ex
    else none
  | c :: r, FloatSt.edU, neg, mant, scale, eneg, ex =>
    if c.isDigit then floatScan r FloatSt.ed neg mant scale eneg (ex * 10 + (c.toNat - 48))
    else none
  | c :: r, FloatSt.ws1, neg, mant, scale, eneg, ex =>
    if isPyWs c then floatScan r FloatSt.ws1 neg mant scale eneg ex else none

/-- Python `float(v)` on a string. -/
def pyFloat? (s : String) : Option Rat :=
  floatScan s.toList FloatSt.ws0 false 0 0 false 0

/-- The `'.' in v` test of the `--set-field` coercion. -/
def hasDot (s : String) : Bool :=
  s.toList.any (fun ch => ch == '.')

/-- The best-effort numeric coercion applied to each `--set-field` value
(`main`, lines 296-302): if the value contains a decimal point try
`float()`, otherwise try `int()`; on `ValueError` keep the string. -/
def coerceValue (v : String) : FieldValue :=
  if hasDot v then
    match pyFloat? v with
    | some q => FieldValue.float q
    | none => FieldValue.str v
  else
    match pyInt? v with
    | some n => FieldValue.int n
    | none => FieldValue.str v

/-- Whether a `--set-field` token contains an `'='`. -/
def hasEq (s : String) : Bool :=
  s.toList.any (fun ch => ch == '=')

/-- Python `kv.split('=', 1)`: the part before the first `'='` and the rest. -/
def splitEq (s : String) : String × String :=
  ((s.toList.takeWhile (fun ch => ch != '=')).asString,
   ((s.toList.dropWhile (fun ch => ch != '=')).drop 1).asString)

/-- One step of the `--set-field` loop in `main` (lines 293-303): a token with
an `'='` is split at the first `'='`, its value coerced, and stored; a token
without `'='` is skipped. -/
def setFieldStep (acc : FieldMap) (kv : String) : FieldMap :=
  if hasEq kv then
    dictInsert acc (splitEq kv).1 (coerceValue (splitEq kv).2)
  else acc

/-- The `extra_fields` dict built from the `--set-field` tokens. -/
def parseSetFields (tokens : List String) : FieldMap :=
  tokens.foldl setFieldStep []

/-- Python `epic_name or summary` (`create_epic`, line 73): the epic name when
it is a non-empty string, otherwise the summary. -/
def pyOrStr (a : Option String) (b : String) : String :=
  match a with
  | some s => if s = "" then b else s
  | none => b

/-- The field map built by `JiraManager.create_story` (lines 38-50): project,
summary, description and issue type `Story`, then assignee, labels and
priority each added only when truthy. -/
def storyFields (project summary description : String) (assignee : Option String)
    (labels : Option (List String)) (priority : Option String) : FieldMap :=
  let fields : FieldMap :=
    [("project", FieldValue.keyObj project),
     ("summary", FieldValue.str summary),
     ("description", FieldValue.str description),
     ("issuetype", FieldValue.nameObj "Story")]
  let fields :=
    match assignee with
    | some a => if a = "" then fields else fields ++ [("assignee", FieldValue.nameObj a)]
    | none => fields
  let fields :=
    match labels with
    | some l => if l = [] then fields else fields ++ [("labels", FieldValue.strList l)]
    | none => fields
  match priority with
  | some p => if p = "" then fields else fields ++ [("priority", FieldValue.nameObj p)]
  | none => fields

/-- `JiraManager.create_story`: build the field map, create the issue, return
its key. -/
def create_story (c : Client) (project summary description : String)
    (assignee : Option String) (labels : Option (List String)) (priority : Option String) :
    Except PyExc String × List RemoteCall :=
  let fields := storyFields project summary description assignee labels priority
  (c.createRes fields, [RemoteCall.createIssue fields])

/-- `JiraManager._get_epic_name_field`: list the tracker's issue types and
return the hard-coded custom-field id when one is named `Epic`; any exception
from the call is swallowed (`except Exception: pass`) and `None` returned.
The `project` argument is accepted but unused, as in the source. -/
def get_epic_name_field (c : Client) (project : String) : Option String × List RemoteCall :=
  match c.issueTypesRes with
  | Except.error _ => (none, [RemoteCall.issueTypes])
  | Except.ok types =>
    (if types.contains "Epic" then some "customfield_10011" else none,
     [RemoteCall.issueTypes])

/-- The unconditional part of the field map built by `JiraManager.create_epic`
(lines 65-70). -/
def epicBaseFields (project summary description : String) : FieldMap :=
  [("project", FieldValue.keyObj project),
   ("summary", FieldValue.str summary),
   ("description", FieldValue.str description),
   ("issuetype", FieldValue.nameObj "Epic")]

/-- `JiraManager.create_epic`: look up the epic-name custom field, add it
(valued `epic_name or summary`) only when the lookup succeeded, create the
issue, return its key. -/
def create_epic (c : Client) (project summary description : String)
    (epic_name : Option String) : Except PyExc String × List RemoteCall :=
  let lookup := get_epic_name_field c project
  let fields := epicBaseFields project summary description
  let fields :=
    match lookup.1 with
    | some f => fields ++ [(f, FieldValue.str (pyOrStr epic_name summary))]
    | none => fields
  (c.createRes fields, lookup.2 ++ [RemoteCall.createIssue fields])

/-- The field map built by `JiraManager.create_subtask` (lines 87-96). -/
def subtaskFields (project parent_key summary description : String)
    (assignee : Option String) : FieldMap :=
  let fields : FieldMap :=
    [("project", FieldValue.keyObj project),
     ("summary", FieldValue.str summary),
     ("description", FieldValue.str description),
     ("issuetype", FieldValue.nameObj "Sub-task"),
     ("parent", FieldValue.keyObj parent_key)]
  match assignee with
  | some a => if a = "" then fields else fields ++ [("assignee", FieldValue.nameObj a)]
  | none => fields

/-- `JiraManager.create_subtask`. -/
def create_subtask (c : Client) (project parent_key summary description : String)
    (assignee : Option String) : Except PyExc String × List RemoteCall :=
  let fields := subtaskFields project parent_key summary description assignee
  (c.createRes fields, [RemoteCall.createIssue fields])

/-- The field map built by `JiraManager.edit_issue` (lines 115-137): each
standard field added when its argument `is not None`, the `timetracking`
sub-dict when either estimate is given, then `fields.update(extra_fields)`
when `extra_fields` is truthy. -/
def editFields (summary description assignee : Option String)
    (labels : Option (List String))
    (priority original_estimate remaining_estimate : Option String)
    (extra_fields : FieldMap) : FieldMap :=
  let fields : FieldMap := []
  let fields :=
    match summary with
    | some s => fields ++ [("summary", FieldValue.str s)]
    | none => fields
  let fields :=
    match description with
    | some d => fields ++ [("description", FieldValue.str d)]
    | none => fields
  let fields :=
    match assignee with
    | some a => fields ++ [("assignee", FieldValue.nameObj a)]
    | none => fields
  let fields :=
    match labels with
    | some ls => fields ++ [("labels", FieldValue.strList ls)]
    | none => fields
  let fields :=
    match priority with
    | some p => fields ++ [("priority", FieldValue.nameObj p)]
    | none => fields
  let fields :=
    if original_estimate.isSome || remaining_estimate.isSome then
      fields ++ [("timetracking", FieldValue.timetracking original_estimate remaining_estimate)]
    else fields
  if extra_fields ≠ [] then dictUpdate fields extra_fields else fields

/-- `JiraManager.edit_issue`: fetch the issue, build the update map, call
`issue.update` only when the map is nonempty, return the fetched issue's
key. -/
def edit_issue (c : Client) (issue_key : String)
    (summary description assignee : Option String) (labels : Option (List String))
    (priority original_estimate remaining_estimate : Option String)
    (extra_fields : FieldMap) : Except PyExc String × List RemoteCall :=
  match c.getRes issue_key with
  | Except.error e => (Except.error e, [RemoteCall.getIssue issue_key])
  | Except.ok fetchedKey =>
    let fields := editFields summary description assignee labels priority
      original_estimate remaining_estimate extra_fields
    if fields ≠ [] then
      ((c.updateRes fetchedKey fields).map (fun _ => fetchedKey),
       [RemoteCall.getIssue issue_key, RemoteCall.updateIssue fetchedKey fields])
    else (Except.ok fetchedKey, [RemoteCall.getIssue issue_key])

/-- `JiraManager.delete_issue`: fetch the issue, then delete it. -/
def delete_issue (c : Client) (issue_key : String) :
    Except PyExc Unit × List RemoteCall :=
  match c.getRes issue_key with
  | Except.error e => (Except.error e, [RemoteCall.getIssue issue_key])
  | Except.ok fetchedKey =>
    (c.deleteRes fetchedKey,
     [RemoteCall.getIssue issue_key, RemoteCall.deleteIssue fetchedKey])

/-- How the body of `main`'s `try` block ends: fell off the end normally (the
collected prints), hit a `sys.exit(1)` usage error, or an exception is
propagating out of the block. -/
inductive TryResult
  | ok (out : List String)
  | usageExit (out : List String)
  | exc (e : PyExc)
deriving DecidableEq, Repr

/-- The body of `main`'s `try` block (lines 239-324): construct the
`JiraManager` (hence the client — a remote interaction that can raise), then
dispatch on the verb, checking required flags (by Python truthiness) before
calling the manager operation.  `sys.exit(1)` raises `SystemExit`, which the
`except JIRAError` clause does not catch, so usage errors propagate as
`usageExit`. -/
def mainTry (server email token : String) (args : Args) (c : Client) :
    TryResult × List RemoteCall :=
  match c.initRes with
  | Except.error e => (TryResult.exc e, [RemoteCall.init server email token])
  | Except.ok _ =>
    let t0 := [RemoteCall.init server email token]
    if args.type = "story" then
      if !truthyOptStr args.project || !truthyOptStr args.issue_key_or_summary then
        (TryResult.usageExit ["Error: --project and summary are required for story"], t0)
      else
        let r := create_story c (args.project.getD "") (args.issue_key_or_summary.getD "")
          args.description args.assignee args.labels args.priority
        (match r.1 with
         | Except.ok key => TryResult.ok ["? Story created: " ++ key]
         | Except.error e => TryResult.exc e, t0 ++ r.2)
    else if args.type = "epic" then
      if !truthyOptStr args.project || !truthyOptStr args.issue_key_or_summary then
        (TryResult.usageExit ["Error: --project and summary are required for epic"], t0)
      else
        let r := create_epic c (args.project.getD "") (args.issue_key_or_summary.getD "")
          args.description args.epic_name
        (match r.1 with
         | Except.ok key => TryResult.ok ["? Epic created: " ++ key]
         | Except.error e => TryResult.exc e, t0 ++ r.2)
    else if args.type = "subtask" then
      if !truthyOptStr args.project || !truthyOptStr args.issue_key_or_summary then
        (TryResult.usageExit ["Error: --project and summary are required for subtask"], t0)
      else if !truthyOptStr args.parent then
        (TryResult.usageExit ["Error: --parent is required for subtasks"], t0)
      else
        let r := create_subtask c (args.project.getD "") (args.parent.getD "")
          (args.issue_key_or_summary.getD "") args.description args.assignee
        (match r.1 with
         | Except.ok key => TryResult.ok ["? Subtask created: " ++ key]
         | Except.error e => TryResult.exc e, t0 ++ r.2)
    else if args.type = "edit" then
      if !truthyOptStr args.issue_key_or_summary then
        (TryResult.usageExit ["Error: Issue key is required for edit"], t0)
      else
        let extra := parseSetFields args.set_field
        let r := edit_issue c (args.issue_key_or_summary.getD "") args.summary
          (some args.description) args.assignee args.labels args.priority
          args.original_estimate args.remaining_estimate extra
        (match r.1 with
         | Except.ok key => TryResult.ok ["? Issue updated: " ++ key]
         | Except.error e => TryResult.exc e, t0 ++ r.2)
    else if args.type = "delete" then
      if !truthyOptStr args.issue_key_or_summary then
        (TryResult.usageExit ["Error: Issue key is required for delete"], t0)
      else
        let r := delete_issue c (args.issue_key_or_summary.getD "")
        (match r.1 with
         | Except.ok _ => TryResult.ok ["? Issue deleted: " ++ args.issue_key_or_summary.getD ""]
         | Except.error e => TryResult.exc e, t0 ++ r.2)
    else (TryResult.ok [], t0)

/-- The configuration-instructions message printed when a credential
environment variable is missing (lines 233-236). -/
def configMsg : List String :=
  ["Error: Configure environment variables:",
   "  export JIRA_SERVER=https://seu-jira.atlassian.net",
   "  export JIRA_EMAIL=seu-email@exemplo.com",
   "  export JIRA_API_TOKEN=seu-token"]

/-- Python `all([jira_server, jira_email, jira_token])`: every credential set
and non-empty. -/
def envOk (env : Env) : Bool :=
  truthyOptStr env.jira_server && truthyOptStr env.jira_email &&
    truthyOptStr env.jira_token

/-- The server credential as passed to `JiraManager` (only used when
truthy). -/
def envServer (env : Env) : String := env.jira_server.getD ""

/-- The email credential as passed to `JiraManager`. -/
def envEmail (env : Env) : String := env.jira_email.getD ""

/-- The token credential as passed to `JiraManager`. -/
def envToken (env : Env) : String := env.jira_token.getD ""

/-- The script's `main` function (lines 161-328): check the credentials, run the `try` block, and
apply the `except JIRAError` handler — a `JIRAError` is printed and the
process exits 1; any other exception class escapes `main` uncaught. -/
def mainRun (env : Env) (args : Args) (c : Client) : RunResult :=
  if envOk env then
    match mainTry (envServer env) (envEmail env) (envToken env) args c with
    | (TryResult.ok out, tr) => ⟨Outcome.exited 0, out, tr⟩
    | (TryResult.usageExit out, tr) => ⟨Outcome.exited 1, out, tr⟩
    | (TryResult.exc (PyExc.jiraError m), tr) =>
      ⟨Outcome.exited 1, ["? Error: " ++ m], tr⟩
    | (TryResult.exc (PyExc.otherExc m), tr) =>
      ⟨Outcome.uncaughtExc (PyExc.otherExc m), [], tr⟩
  else ⟨Outcome.exited 1, configMsg, []⟩

/-! ## Concrete fixtures for closed runs -/

/-- A fully-populated credential environment. -/
def envAll : Env :=
  { jira_server := some "https://jira.example",
    jira_email := some "dev@example.com",
    jira_token := some "tok" }

/-- A client whose every call succeeds: the tracker has an `Epic` issue type,
creation returns `NEW-1`, and fetching an issue echoes the requested key. -/
def clientOk : Client where
  initRes := Except.ok ()
  issueTypesRes := Except.ok ["Epic", "Story"]
  createRes := fun _ => Except.ok "NEW-1"
  getRes := fun k => Except.ok k
  updateRes := fun _ _ => Except.ok ()
  deleteRes := fun _ => Except.ok ()

/-! ## C1 -/

/-- C1: the claim says an `edit` invocation with no editable field specified
performs no remote update call.  On the code it fails: `argparse` gives
`--description` the default `''`, `main` passes it unconditionally, and
`edit_issue` treats any non-`None` description as a field to set, so a bare
`edit PROJ-123` sends `issue.update(fields={'description': ''})` — a remote
update call that moreover clears the issue's description. -/
theorem c1_edit_no_flags_still_updates :
    mainRun envAll { type := "edit", issue_key_or_summary := some "PROJ-123" } clientOk =
      ⟨Outcome.exited 0, ["? Issue updated: PROJ-123"],
       [RemoteCall.init "https://jira.example" "dev@example.com" "tok",
        RemoteCall.getIssue "PROJ-123",
        RemoteCall.updateIssue "PROJ-123" [("description", FieldValue.str "")]]⟩ := by
  rfl

/-! ## C2 -/

/-- C2, counterexample: on `story` with `--project` missing the process does
exit with status 1, but not before any network call is attempted — the
`JiraManager` (and with it the `JIRA` client, whose construction contacts the
server) is built at line 240, before the required-flag check at line 243, so
the trace already holds the client-construction interaction. -/
theorem c2_counterexample :
    (mainRun envAll { type := "story", issue_key_or_summary := some "Title" } clientOk).outcome =
      Outcome.exited 1 ∧
    (mainRun envAll { type := "story", issue_key_or_summary := some "Title" } clientOk).trace =
      [RemoteCall.init "https://jira.example" "dev@example.com" "tok"] := by
  exact ⟨rfl, rfl⟩

/-! ## C3 -/

/-- C3, counterexample: a successful `delete` run performs three remote
interactions — client construction, fetching the issue, and deleting it — so
the run is not "at most one network call". -/
theorem c3_counterexample :
    (mainRun envAll { type := "delete", issue_key_or_summary := some "PROJ-7" } clientOk).trace =
      [RemoteCall.init "https://jira.example" "dev@example.com" "tok",
       RemoteCall.getIssue "PROJ-7", RemoteCall.deleteIssue "PROJ-7"] ∧
    ¬ ((mainRun envAll { type := "delete", issue_key_or_summary := some "PROJ-7" } clientOk).trace.length ≤ 1) := by
  exact ⟨rfl, by decide⟩

/-! ## C4 -/

/-- A client whose issue fetch raises an exception that is not a `JIRAError`
(e.g. a transport-level `ConnectionError` from the HTTP layer). -/
def clientConnFail : Client :=
  { clientOk with getRes := fun _ => Except.error (PyExc.otherExc "ConnectionError") }

/-- C4, counterexample: when the remote client raises an exception that is
not a `JIRAError`, the `except JIRAError` handler at line 326 does not catch
it — the exception escapes `main` uncaught and no error message is printed,
so not every remote-client exception is caught, printed and turned into
exit code 1. -/
theorem c4_counterexample :
    (mainRun envAll { type := "delete", issue_key_or_summary := some "PROJ-7" } clientConnFail).outcome =
      Outcome.uncaughtExc (PyExc.otherExc "ConnectionError") ∧
    (mainRun envAll { type := "delete", issue_key_or_summary := some "PROJ-7" } clientConnFail).output =
      [] := by
  exact ⟨rfl, rfl⟩

/-! ## C8 -/

/-- C8: if any of the three credential environment variables is unset, the
process prints the configuration-instructions message and exits with code 1
with no remote interaction attempted. -/
theorem c8_missing_env_exits (env : Env) (args : Args) (c : Client)
    (h : env.jira_server = none ∨ env.jira_email = none ∨ env.jira_token = none) :
    mainRun env args c = ⟨Outcome.exited 1, configMsg, []⟩ := by
  have hok : envOk env = false := by
    rcases h with h | h | h <;> simp [envOk, h, truthyOptStr]
  simp [mainRun, hok]

/-- C8, witness: with only the server variable set, a `delete` run exits 1
with the configuration message and an empty remote trace. -/
theorem c8_witness :
    mainRun { jira_server := some "https://jira.example" } { type := "delete" } clientOk =
      ⟨Outcome.exited 1, configMsg, []⟩ :=
  c8_missing_env_exits _ _ _ (Or.inr (Or.inl rfl))

/-! ## C6 and C10 -/

/-- Whether the epic-name custom-field lookup succeeds: the issue-type query
returns without raising and some issue type is named `Epic`. -/
def epicFieldFound (c : Client) : Bool :=
  match c.issueTypesRes with
  | Except.ok ts => ts.contains "Epic"
  | Except.error _ => false

/-- C6: when the epic-name lookup fails (the issue-type query raises, or no
issue type is named `Epic`), epic creation sends the field map without the
epic-name custom field and — provided the remote create succeeds — still
succeeds and returns the created issue's key. -/
theorem c6_epic_lookup_failure_omits_field (c : Client)
    (project summary description : String) (epic_name : Option String) (key : String)
    (hlookup : epicFieldFound c = false)
    (hcreate : c.createRes (epicBaseFields project summary description) = Except.ok key) :
    create_epic c project summary description epic_name =
      (Except.ok key,
       [RemoteCall.issueTypes,
        RemoteCall.createIssue (epicBaseFields project summary description)]) := by
  unfold epicFieldFound at hlookup
  rcases hT : c.issueTypesRes with e | ts
  · simp [create_epic, get_epic_name_field, hT, hcreate]
  · rw [hT] at hlookup
    simp only [] at hlookup
    simp at hlookup
    simp [create_epic, get_epic_name_field, hT, hlookup, hcreate]

/-- A client like `clientOk` but whose tracker has no `Epic` issue type. -/
def clientNoEpicType : Client :=
  { clientOk with issueTypesRes := Except.ok ["Story", "Bug"] }

/-- C6, witness: against a tracker with no `Epic` issue type, creating the
epic `Big epic` succeeds with the custom field omitted. -/
theorem c6_witness :
    create_epic clientNoEpicType "PROJ" "Big epic" "" none =
      (Except.ok "NEW-1",
       [RemoteCall.issueTypes,
        RemoteCall.createIssue (epicBaseFields "PROJ" "Big epic" "")]) :=
  c6_epic_lookup_failure_omits_field _ _ _ _ _ _ (by decide) rfl

/-- C10: when the epic-name custom field is found and the `--epic-name`
argument is absent or the empty string, `epic_name or summary` falls back to
the summary, so the field map sent to the create call carries the summary as
the value of `customfield_10011`. -/
theorem c10_epic_name_defaults_to_summary (c : Client)
    (project summary description : String) (epic_name : Option String)
    (hfound : epicFieldFound c = true)
    (hname : epic_name = none ∨ epic_name = some "") :
    (create_epic c project summary description epic_name).2 =
      [RemoteCall.issueTypes,
       RemoteCall.createIssue (epicBaseFields project summary description ++
         [("customfield_10011", FieldValue.str summary)])] := by
  unfold epicFieldFound at hfound
  have hval : pyOrStr epic_name summary = summary := by
    rcases hname with h | h <;> simp [pyOrStr, h]
  rcases hT : c.issueTypesRes with e | ts
  · rw [hT] at hfound; cases hfound
  · rw [hT] at hfound
    simp at hfound
    simp [create_epic, get_epic_name_field, hT, hfound, hval]

/-- C10, witness: creating the epic `Big epic` with no `--epic-name` against
a tracker that has an `Epic` issue type sends `customfield_10011 = "Big
epic"`. -/
theorem c10_witness :
    (create_epic clientOk "PROJ" "Big epic" "" none).2 =
      [RemoteCall.issueTypes,
       RemoteCall.createIssue (epicBaseFields "PROJ" "Big epic" "" ++
         [("customfield_10011", FieldValue.str "Big epic")])] :=
  c10_epic_name_defaults_to_summary _ _ _ _ _ (by decide) (Or.inl rfl)

/-! ## C5 -/

/-- The characters that can appear in a string accepted by Python `int()`:
whitespace, a sign, underscore separators and digits. -/
def intCharOk (ch : Char) : Bool :=
  isPyWs ch || ch = '+' || ch = '-' || ch = '_' || ch.isDigit

/-- Every character of a string accepted by the `int()` scanner is
whitespace, a sign, an underscore or a digit. -/
theorem intScan_chars (l : List Char) : ∀ st neg acc n, intScan l st neg acc = some n →
    ∀ ch ∈ l, intCharOk ch = true := by
  induction l with
  | nil => intro st neg acc n _ ch hch; simp at hch
  | cons c r ih =>
    intro st neg acc n h ch hch
    rcases List.mem_cons.mp hch with rfl | hmem
    · cases st <;> simp only [intScan] at h <;> split_ifs at h <;>
        simp_all [intCharOk]
    · cases st <;> simp only [intScan] at h <;> split_ifs at h <;>
        first
          | exact ih _ _ _ _ h ch hmem
          | simp_all

/-- A string accepted by Python `int()` contains no decimal point. -/
theorem pyInt_no_dot (v : String) (n : Int) (h : pyInt? v = some n) :
    hasDot v = false := by
  unfold pyInt? at h
  by_contra hne
  have hdot : hasDot v = true := by
    cases hd : hasDot v
    · exact absurd hd hne
    · rfl
  unfold hasDot at hdot
  rw [List.any_eq_true] at hdot
  obtain ⟨ch, hmem, hc⟩ := hdot
  have h1 : ch = '.' := by simpa using hc
  subst h1
  have h2 := intScan_chars v.toList IntSt.ws0 false 0 n h '.' hmem
  exact absurd h2 (by decide)

/-- C5: the `--set-field` value coercion behaves as specified — a value
parseable as an integer is coerced to that integer; a value containing a
decimal point that parses as a float is coerced to that float; otherwise the
value is kept as a string. -/
theorem c5_set_field_coercion (v : String) :
    (∀ n : Int, pyInt? v = some n → coerceValue v = FieldValue.int n) ∧
    (∀ q : Rat, hasDot v = true → pyFloat? v = some q → coerceValue v = FieldValue.float q) ∧
    (pyInt? v = none → (hasDot v = true → pyFloat? v = none) →
      coerceValue v = FieldValue.str v) := by
  refine ⟨?_, ?_, ?_⟩
  · intro n h
    have hd := pyInt_no_dot v n h
    simp [coerceValue, hd, h]
  · intro q hd hf
    simp [coerceValue, hd, hf]
  · intro hi hf
    cases hd : hasDot v
    · simp [coerceValue, hd, hi]
    · simp [coerceValue, hd, hf hd]

/-- C5, witness: `k=3` coerces to the integer `3`, `k=3.5` to the float
`3.5`, and `k=abc` stays the string `"abc"`. -/
theorem c5_witness :
    coerceValue "3" = FieldValue.int 3 ∧
    coerceValue "3.5" = FieldValue.float (3.5 : Rat) ∧
    coerceValue "abc" = FieldValue.str "abc" :=
  ⟨(c5_set_field_coercion "3").1 3 (by decide),
   (c5_set_field_coercion "3.5").2.1 (3.5 : Rat) (by decide)
     (by simp [pyFloat?, floatScan, ratOfParts, isPyWs]; norm_num),
   (c5_set_field_coercion "abc").2.2 (by decide) (by decide)⟩

/-! ## C9 -/

/-- Folding the `--set-field` loop over a token list visits exactly the
tokens containing an `'='`; tokens without one leave the accumulator
unchanged. -/
theorem setFieldFold_filter (tokens : List String) (acc : FieldMap) :
    tokens.foldl setFieldStep acc = (tokens.filter hasEq).foldl setFieldStep acc := by
  induction tokens generalizing acc with
  | nil => rfl
  | cons t r ih =>
    cases h : hasEq t
    · simp [List.filter_cons, h, setFieldStep, ih]
    · simp [List.filter_cons, h, ih]

/-- C9: a `--set-field` token without an `'='` character is silently
ignored — it contributes nothing to the `extra_fields` dict, and a run with
such tokens is identical (same exit outcome, output and remote trace) to the
run with them removed, so they cause no error or exit. -/
theorem c9_set_field_without_eq_ignored :
    (∀ tokens : List String, parseSetFields tokens = parseSetFields (tokens.filter hasEq)) ∧
    (∀ (env : Env) (args : Args) (c : Client),
      mainRun env args c = mainRun env { args with set_field := args.set_field.filter hasEq } c) := by
  constructor
  · intro tokens
    exact setFieldFold_filter tokens []
  · intro env args c
    have h : parseSetFields (args.set_field.filter hasEq) = parseSetFields args.set_field :=
      (setFieldFold_filter args.set_field []).symm
    unfold mainRun mainTry
    simp only [h]

/-! ## C2, amended -/

/-- The required-flag violations `main` checks for, verb by verb, with
Python truthiness (lines 242-244, 257-259, 270-276, 287-290, 318-321). -/
def missingRequired (args : Args) : Prop :=
  (args.type = "story" ∧
    (truthyOptStr args.project = false ∨ truthyOptStr args.issue_key_or_summary = false)) ∨
  (args.type = "epic" ∧
    (truthyOptStr args.project = false ∨ truthyOptStr args.issue_key_or_summary = false)) ∨
  (args.type = "subtask" ∧
    (truthyOptStr args.project = false ∨ truthyOptStr args.issue_key_or_summary = false ∨
      truthyOptStr args.parent = false)) ∨
  (args.type = "edit" ∧ truthyOptStr args.issue_key_or_summary = false) ∨
  (args.type = "delete" ∧ truthyOptStr args.issue_key_or_summary = false)

/-- With the client constructed successfully, a required-flag violation makes
the `try` body hit `sys.exit(1)` with a one-line usage message, after the
client construction but before any issue-operation call. -/
theorem mainTry_missing (server email token : String) (args : Args) (c : Client)
    (hinit : c.initRes = Except.ok ()) (hmiss : missingRequired args) :
    ∃ msg, mainTry server email token args c =
      (TryResult.usageExit [msg], [RemoteCall.init server email token]) := by
  unfold mainTry
  rw [hinit]
  rcases hmiss with ⟨ht, h⟩ | ⟨ht, h⟩ | ⟨ht, h⟩ | ⟨ht, h⟩ | ⟨ht, h⟩ <;> rw [ht]
  · exact ⟨"Error: --project and summary are required for story",
      by rcases h with h | h <;> simp [h]⟩
  · exact ⟨"Error: --project and summary are required for epic",
      by rcases h with h | h <;> simp [h]⟩
  · rcases h with h | h | h
    · exact ⟨"Error: --project and summary are required for subtask", by simp [h]⟩
    · exact ⟨"Error: --project and summary are required for subtask", by simp [h]⟩
    · by_cases hp : (!truthyOptStr args.project || !truthyOptStr args.issue_key_or_summary) = true
      · exact ⟨"Error: --project and summary are required for subtask", by simp [hp]⟩
      · have hp' : (!truthyOptStr args.project || !truthyOptStr args.issue_key_or_summary) = false := by
          simpa using hp
        exact ⟨"Error: --parent is required for subtasks", by simp [hp', h]⟩
  · exact ⟨"Error: Issue key is required for edit", by simp [h]⟩
  · exact ⟨"Error: Issue key is required for delete", by simp [h]⟩

/-- C2, amended: a run with a missing required flag (and credentials present
and a client that constructs successfully) exits with status 1 after printing
a usage message, and attempts no issue-operation call — its whole remote
trace is the client construction, which happens before the flag check. -/
theorem c2_usage_exit_before_operations (env : Env) (args : Args) (c : Client)
    (henv : envOk env = true) (hinit : c.initRes = Except.ok ())
    (hmiss : missingRequired args) :
    (mainRun env args c).outcome = Outcome.exited 1 ∧
    (mainRun env args c).trace =
      [RemoteCall.init (envServer env) (envEmail env) (envToken env)] := by
  obtain ⟨msg, hm⟩ :=
    mainTry_missing (envServer env) (envEmail env) (envToken env) args c hinit hmiss
  simp [mainRun, henv, hm]

/-- C2, witness: an `edit` run with no issue key, full credentials and a
healthy client exits 1 and its trace is exactly the client construction. -/
theorem c2_witness :
    (mainRun envAll { type := "edit" } clientOk).outcome = Outcome.exited 1 ∧
    (mainRun envAll { type := "edit" } clientOk).trace =
      [RemoteCall.init "https://jira.example" "dev@example.com" "tok"] :=
  c2_usage_exit_before_operations envAll { type := "edit" } clientOk (by decide) rfl
    (Or.inr (Or.inr (Or.inr (Or.inl ⟨rfl, rfl⟩))))

/-! ## C3, amended -/

/-- The remote calls that modify state on the tracker: create, update,
delete.  Client construction, issue fetch and issue-type listing are
reads. -/
def isMutating : RemoteCall → Bool
  | RemoteCall.createIssue _ => true
  | RemoteCall.updateIssue _ _ => true
  | RemoteCall.deleteIssue _ => true
  | _ => false

/-- A story creation performs exactly one mutating remote call. -/
theorem mut_create_story (c : Client) (p s d : String) (a : Option String)
    (l : Option (List String)) (pr : Option String) :
    ((create_story c p s d a l pr).2.countP isMutating) ≤ 1 := by
  simp [create_story, List.countP_cons, isMutating]

/-- An epic creation performs exactly one mutating remote call (the
issue-type listing is a read). -/
theorem mut_create_epic (c : Client) (p s d : String) (en : Option String) :
    ((create_epic c p s d en).2.countP isMutating) ≤ 1 := by
  unfold create_epic get_epic_name_field
  rcases c.issueTypesRes with e | ts <;>
    simp [List.countP_append, List.countP_cons, isMutating]

/-- A subtask creation performs exactly one mutating remote call. -/
theorem mut_create_subtask (c : Client) (p pk s d : String) (a : Option String) :
    ((create_subtask c p pk s d a).2.countP isMutating) ≤ 1 := by
  simp [create_subtask, List.countP_cons, isMutating]

/-- An edit performs at most one mutating remote call: the fetch is a read
and the update is sent at most once. -/
theorem mut_edit_issue (c : Client) (k : String) (su de asg : Option String)
    (la : Option (List String)) (pri oe re : Option String) (extra : FieldMap) :
    ((edit_issue c k su de asg la pri oe re extra).2.countP isMutating) ≤ 1 := by
  unfold edit_issue
  rcases c.getRes k with e | fk
  · simp [List.countP_cons, isMutating]
  · by_cases hf : editFields su de asg la pri oe re extra = [] <;>
      simp [hf, List.countP_cons, isMutating]

/-- A delete performs exactly one mutating remote call after the read that
fetches the issue. -/
theorem mut_delete_issue (c : Client) (k : String) :
    ((delete_issue c k).2.countP isMutating) ≤ 1 := by
  unfold delete_issue
  rcases c.getRes k with e | fk <;> simp [List.countP_cons, isMutating]

/-- The `try` body performs at most one mutating remote call on any input. -/
theorem mut_mainTry (server email token : String) (args : Args) (c : Client) :
    ((mainTry server email token args c).2.countP isMutating) ≤ 1 := by
  unfold mainTry
  rcases c.initRes with e | u
  · simp [List.countP_cons, isMutating]
  · simp only []
    split_ifs <;>
      simp [List.countP_append, List.countP_cons, isMutating,
        mut_create_story, mut_create_epic, mut_create_subtask,
        mut_edit_issue, mut_delete_issue]

/-- C3, amended: every process run performs at most one mutating remote call
(create, update or delete) — but not at most one network call in total:
`edit` and `delete` first fetch the issue, epic creation first lists issue
types, and client construction itself contacts the server. -/
theorem c3_at_most_one_mutating_call (env : Env) (args : Args) (c : Client) :
    ((mainRun env args c).trace.countP isMutating) ≤ 1 := by
  unfold mainRun
  cases henv : envOk env
  · simp
  · have h := mut_mainTry (envServer env) (envEmail env) (envToken env) args c
    rcases hm : mainTry (envServer env) (envEmail env) (envToken env) args c with ⟨tr, t⟩
    rw [hm] at h
    rcases tr with out | out | e
    · simpa using h
    · simpa using h
    · rcases e with m | m <;> simpa using h

/-! ## C4, amended -/

/-- C4, amended: the `except JIRAError` handler catches exactly the client
library's `JIRAError`: (1) no run ends with an uncaught `JIRAError`; (2)
whenever the `try` body propagates a `JIRAError`, the run prints
`? Error: <msg>` and exits 1; (3) concretely, a `delete` whose issue fetch
raises `JIRAError` exits 1 with the printed message after the construction
and fetch interactions.  Exceptions of any other class escape uncaught
instead. -/
theorem c4_jira_errors_caught (env : Env) (args : Args) (c : Client)
    (henv : envOk env = true) :
    (∀ m, (mainRun env args c).outcome ≠ Outcome.uncaughtExc (PyExc.jiraError m)) ∧
    (∀ m tr, mainTry (envServer env) (envEmail env) (envToken env) args c =
        (TryResult.exc (PyExc.jiraError m), tr) →
      mainRun env args c = ⟨Outcome.exited 1, ["? Error: " ++ m], tr⟩) ∧
    (∀ m k, args.type = "delete" → args.issue_key_or_summary = some k →
      truthyOptStr (some k) = true → c.initRes = Except.ok () →
      c.getRes k = Except.error (PyExc.jiraError m) →
      mainRun env args c = ⟨Outcome.exited 1, ["? Error: " ++ m],
        [RemoteCall.init (envServer env) (envEmail env) (envToken env),
         RemoteCall.getIssue k]⟩) := by
  refine ⟨?_, ?_, ?_⟩
  · intro m
    rcases hm : mainTry (envServer env) (envEmail env) (envToken env) args c with ⟨tr', t⟩
    rcases tr' with out | out | e
    · simp [mainRun, henv, hm]
    · simp [mainRun, henv, hm]
    · rcases e with mm | mm <;> simp [mainRun, henv, hm]
  · intro m tr hm
    simp [mainRun, henv, hm]
  · intro m k ht hk htr hinit hget
    have hmt : mainTry (envServer env) (envEmail env) (envToken env) args c =
        (TryResult.exc (PyExc.jiraError m),
         [RemoteCall.init (envServer env) (envEmail env) (envToken env),
          RemoteCall.getIssue k]) := by
      unfold mainTry
      rw [hinit, ht]
      simp [hk, htr, delete_issue, hget]
    simp [mainRun, henv, hmt]

/-- A client whose issue fetch raises a `JIRAError`. -/
def clientJiraFail : Client :=
  { clientOk with getRes := fun _ => Except.error (PyExc.jiraError "Issue Does Not Exist") }

/-- C4, witness: deleting `PROJ-9` when the fetch raises a `JIRAError` prints
the error and exits 1. -/
theorem c4_witness :
    mainRun envAll { type := "delete", issue_key_or_summary := some "PROJ-9" } clientJiraFail =
      ⟨Outcome.exited 1, ["? Error: Issue Does Not Exist"],
       [RemoteCall.init "https://jira.example" "dev@example.com" "tok",
        RemoteCall.getIssue "PROJ-9"]⟩ :=
  (c4_jira_errors_caught envAll
      { type := "delete", issue_key_or_summary := some "PROJ-9" } clientJiraFail
      (by decide)).2.2
    "Issue Does Not Exist" "PROJ-9" rfl rfl (by decide) rfl rfl

/-! ## C7 -/

/-- C7: given the required flags, story creation sends exactly one create
call whose field map carries the project key, summary, description and issue
type `Story`; the assignee, labels and priority entries appear only when the
corresponding optional argument was provided; no other keys occur; and the
operation returns the key the remote client returned. -/
theorem c7_story_field_map (c : Client) (project summary description : String)
    (assignee : Option String) (labels : Option (List String)) (priority : Option String)
    (key : String)
    (hkey : c.createRes (storyFields project summary description assignee labels priority) =
      Except.ok key) :
    create_story c project summary description assignee labels priority =
      (Except.ok key,
       [RemoteCall.createIssue (storyFields project summary description assignee labels priority)]) ∧
    dictLookup (storyFields project summary description assignee labels priority) "project" =
      some (FieldValue.keyObj project) ∧
    dictLookup (storyFields project summary description assignee labels priority) "summary" =
      some (FieldValue.str summary) ∧
    dictLookup (storyFields project summary description assignee labels priority) "description" =
      some (FieldValue.str description) ∧
    dictLookup (storyFields project summary description assignee labels priority) "issuetype" =
      some (FieldValue.nameObj "Story") ∧
    (dictHasKey (storyFields project summary description assignee labels priority) "assignee" = true →
      assignee.isSome = true) ∧
    (dictHasKey (storyFields project summary description assignee labels priority) "labels" = true →
      labels.isSome = true) ∧
    (dictHasKey (storyFields project summary description assignee labels priority) "priority" = true →
      priority.isSome = true) ∧
    (storyFields project summary description assignee labels priority).map Prod.fst ⊆
      ["project", "summary", "description", "issuetype", "assignee", "labels", "priority"] := by
  refine ⟨by simp [create_story, hkey], ?_⟩
  rcases assignee with _ | a <;> rcases labels with _ | l <;> rcases priority with _ | p <;>
    simp [storyFields, dictLookup, dictHasKey, List.find?] <;>
    split_ifs <;>
    simp_all [dictLookup, dictHasKey, List.find?, List.subset_def]

/-- C7, witness: creating the story `Title` in `PROJ` with an assignee and no
labels or priority sends the corresponding field map and returns the key the
client answered with. -/
theorem c7_witness :
    create_story clientOk "PROJ" "Title" "" (some "bob") none none =
      (Except.ok "NEW-1",
       [RemoteCall.createIssue (storyFields "PROJ" "Title" "" (some "bob") none none)]) :=
  (c7_story_field_map clientOk "PROJ" "Title" "" (some "bob") none none "NEW-1" rfl).1
